import Mathlib

/-!
Verification development for `performance.py`: a single-host telemetry
collector that samples OS metrics, aggregates them (min/max/average),
collects one-time metrics, and appends one row per run to `stats.csv`.

Machine floats are modelled as exact rationals (ℚ).  Python's built-in
`round(x, 2)` rounds to the nearest multiple of 1/100 with ties going to
the even choice (round-half-to-even); it is modelled by `roundTo2`.
Fallible operations are modelled with `Option`/`Except`: a Python
exception is `none`/`Except.error`.
-/

namespace OSMetrics

/-- Round a rational to the nearest integer, ties to the even integer —
the documented behaviour of Python's built-in `round`. -/
def roundHalfEven (q : ℚ) : ℤ :=
  if q - Int.floor q < 1/2 then Int.floor q
  else if q - Int.floor q > 1/2 then Int.floor q + 1
  else if Int.floor q % 2 = 0 then Int.floor q else Int.floor q + 1

/-- Model of Python `round(x, 2)`: round to 2 decimal places, half to even. -/
def roundTo2 (q : ℚ) : ℚ := (roundHalfEven (q * 100) : ℚ) / 100

/-- Modelled from the spec words "standard rounding": round to the nearest
integer with ties away from zero (ordinary school rounding).  Used only to
compare the spec's description of `average()` against the code. -/
def standardRound (q : ℚ) : ℤ :=
  if q - Int.floor q < 1/2 then Int.floor q
  else if q - Int.floor q > 1/2 then Int.floor q + 1
  else if 0 ≤ q then Int.floor q + 1 else Int.floor q

/-- "Standard rounding" to 2 decimal places, from the spec's words. -/
def standardRound2 (q : ℚ) : ℚ := (standardRound (q * 100) : ℚ) / 100

/-- `class Metric`: owns the accumulated list `self._values`. -/
structure Metric where
  _values : List ℚ
deriving DecidableEq

/-- `max(self._values)`: Python `max` of a list; raises ValueError on an
empty list (modelled as `none`). -/
def Metric.max (m : Metric) : Option ℚ :=
  match m._values with
  | [] => none
  | x :: xs => some (xs.foldl Max.max x)

/-- `min(self._values)`: Python `min` of a list; raises ValueError on an
empty list (modelled as `none`). -/
def Metric.min (m : Metric) : Option ℚ :=
  match m._values with
  | [] => none
  | x :: xs => some (xs.foldl Min.min x)

/-- `round(sum(self._values) / len(self._values), 2)`: ZeroDivisionError on
an empty list (modelled as `none`). -/
def Metric.average (m : Metric) : Option ℚ :=
  if m._values.length = 0 then none
  else some (roundTo2 (m._values.sum / m._values.length))

/-- Ambient state the program reads: platform name, clock, psutil readings
(per sampling round, `none` meaning that read raised), filesystem failure
flags, sensor dictionaries, and the CLI output directory. -/
structure Env where
  osName : String
  timestampStr : String
  outputDir : String
  cwd : String
  mkdirFails : Bool
  topFails : Bool
  cpuReads : Nat → Option ℚ
  memoryReads : Nat → Option ℚ
  swapReads : Nat → Option ℚ
  diskReadTimeReads : Nat → Option ℚ
  diskWriteTimeReads : Nat → Option ℚ
  diskUsagePercent : String → ℚ
  bootTime : ℚ
  temperatures : List (String × List ℚ)
  fans : List (String × List ℚ)

/-- `DiskUsage.get_value`: `psutil.disk_usage(os.getcwd()).percent` —
queried at the current working directory. -/
def DiskUsage.get_value (env : Env) : ℚ := env.diskUsagePercent env.cwd

/-- `BootTime.get_value`: `psutil.boot_time()`. -/
def BootTime.get_value (env : Env) : ℚ := env.bootTime

/-- `Temperature.get_value` called on an instance: returns `0.0` on nt;
otherwise reads `psutil.sensors_temperatures()` (result unused, TODO stub)
and returns `0.0`. -/
def Temperature.get_value (env : Env) : Except String ℚ :=
  if env.osName = "nt" then Except.ok 0
  else Except.ok 0

/-- `FanSpeed.get_value` called on an instance: returns `0.0` on nt;
otherwise evaluates `list(psutil.sensors_fans().values())[0]`, which raises
IndexError when no fans are detected, then returns `0.0` (TODO stub). -/
def FanSpeed.get_value (env : Env) : Except String ℚ :=
  if env.osName = "nt" then Except.ok 0
  else
    match env.fans with
    | [] => Except.error "IndexError"
    | _ :: _ => Except.ok 0

/-- `Metric.generate` followed by its completion callback `append_value`:
the submitted read's result is appended to `self._values`; if the read
raised, `f.result()` re-raises inside the callback and no value is
appended (the executor swallows the callback's exception). -/
def Metric.generate (m : Metric) (read : Option ℚ) : Metric :=
  match read with
  | some v => ⟨m._values ++ [v]⟩
  | none => m

/-- The five sampled metrics created in `run`:
`[m() for m in [CPU, Memory, SwapMemory, DiskReadTime, DiskWriteTime]]`. -/
structure SamplerState where
  cpu : Metric
  memory : Metric
  swapMemory : Metric
  diskReadTime : Metric
  diskWriteTime : Metric
deriving DecidableEq

/-- Fresh metrics, each with an empty `_values`. -/
def initialMetrics : SamplerState := ⟨⟨[]⟩, ⟨[]⟩, ⟨[]⟩, ⟨[]⟩, ⟨[]⟩⟩

/-- One round of `for m in metrics: m.generate()`: each metric receives the
environment's reading for round `i`. -/
def samplingRound (env : Env) (s : SamplerState) (i : Nat) : SamplerState where
  cpu := s.cpu.generate (env.cpuReads i)
  memory := s.memory.generate (env.memoryReads i)
  swapMemory := s.swapMemory.generate (env.swapReads i)
  diskReadTime := s.diskReadTime.generate (env.diskReadTimeReads i)
  diskWriteTime := s.diskWriteTime.generate (env.diskWriteTimeReads i)

/-- `for i in range(0, 5): ... time.sleep(1)` — the five sampling rounds. -/
def runSampling (env : Env) : SamplerState :=
  (List.range 5).foldl (samplingRound env) initialMetrics

/-- `for m in metrics: results.append(m.average)` — reading the five
averages in declared order; an empty accumulation raises
ZeroDivisionError, aborting the run. -/
def averagesOf (s : SamplerState) : Except String (List ℚ) :=
  match s.cpu.average, s.memory.average, s.swapMemory.average,
        s.diskReadTime.average, s.diskWriteTime.average with
  | some a, some b, some c, some d, some e => Except.ok [a, b, c, d, e]
  | _, _, _, _, _ => Except.error "ZeroDivisionError"

/-- Elements of the `one_time_metrics` list in `run`.  `DiskUsage` and
`BootTime` are instantiated (`m()`); on posix the list is extended by
`one_time_metrics += [Temperature, FanSpeed]` — the CLASS objects, not
instances. -/
inductive OneTimeEntry
  | diskUsageInst
  | bootTimeInst
  | temperatureCls
  | fanSpeedCls
deriving DecidableEq

/-- `m.get_value()` on each entry of `one_time_metrics`.  Calling
`get_value()` on the class objects `Temperature`/`FanSpeed` passes no
`self` argument and raises TypeError. -/
def OneTimeEntry.get_value (env : Env) : OneTimeEntry → Except String ℚ
  | .diskUsageInst => Except.ok (DiskUsage.get_value env)
  | .bootTimeInst => Except.ok (BootTime.get_value env)
  | .temperatureCls => Except.error "TypeError"
  | .fanSpeedCls => Except.error "TypeError"

/-- The `one_time_metrics` list built in `run`. -/
def oneTimeMetrics (env : Env) : List OneTimeEntry :=
  [.diskUsageInst, .bootTimeInst]
    ++ (if env.osName = "posix" then [.temperatureCls, .fanSpeedCls] else [])

/-- `for m in one_time_metrics: results.append(m.get_value())`; the first
exception aborts the run. -/
def collectValues (env : Env) : List OneTimeEntry → Except String (List ℚ)
  | [] => Except.ok []
  | m :: rest =>
    match m.get_value env with
    | Except.error e => Except.error e
    | Except.ok v =>
      match collectValues env rest with
      | Except.error e => Except.error e
      | Except.ok vs => Except.ok (v :: vs)

/-- The one-time collection phase of `run`. -/
def collectOneTime (env : Env) : Except String (List ℚ) :=
  collectValues env (oneTimeMetrics env)

/-- A CSV cell: the timestamp is a string, every other cell a number. -/
inductive Cell
  | str : String → Cell
  | num : ℚ → Cell
deriving DecidableEq

/-- The module-level `headers` list: fixed eight names, plus Temperature
and Fan Speed when `os.name == "posix"`. -/
def headers (osName : String) : List String :=
  ["Timestamp", "CPU", "Memory", "Swap Memory", "Disk Read Time",
   "Disk Write Time", "Disk Usage", "Boot Time"]
    ++ (if osName = "posix" then ["Temperature", "Fan Speed"] else [])

/-- The header row as CSV cells. -/
def headerRow (osName : String) : List Cell := (headers osName).map Cell.str

/-- `results = [dt.strftime('%x %X')]` then the five averages then the
one-time values, in that order. -/
def buildRow (env : Env) (avgs oneTime : List ℚ) : List Cell :=
  Cell.str env.timestampStr :: (avgs.map Cell.num ++ oneTime.map Cell.num)

/-- `stats.csv`: `none` when the file does not exist, otherwise its rows. -/
structure FileState where
  lines : Option (List (List Cell))
deriving DecidableEq

/-- `exists = stats_file.exists()` / open in append mode / write the header
iff the file did not exist / append the results row. -/
def writeCsv (fs : FileState) (osName : String) (row : List Cell) : FileState :=
  match fs.lines with
  | none => ⟨some [headerRow osName, row]⟩
  | some ls => ⟨some (ls ++ [row])⟩

/-- `run(output_dir)`: mkdir, timestamp, `top`, sampling, averaging,
one-time collection, then the single CSV append.  Returns the resulting
file state and whether the run completed (`false` = aborted by an
exception; the input file state is returned unchanged then, since nothing
touches `stats.csv` before the final write). -/
def run (env : Env) (fs : FileState) : FileState × Bool :=
  if env.mkdirFails then (fs, false)
  else if env.topFails then (fs, false)
  else
    match averagesOf (runSampling env) with
    | Except.error _ => (fs, false)
    | Except.ok avgs =>
      match collectOneTime env with
      | Except.error _ => (fs, false)
      | Except.ok oneTime =>
        (writeCsv fs env.osName (buildRow env avgs oneTime), true)

/-- `run` invoked `n` times in sequence against the same directory. -/
def runN (env : Env) : Nat → FileState → FileState
  | 0, fs => fs
  | Nat.succ n, fs => runN env n (run env fs).1

/-- The fully assembled data row of a successful non-posix run, given the
five averaged values. -/
def dataRow (env : Env) (a b c d e : ℚ) : List Cell :=
  [Cell.str env.timestampStr, Cell.num a, Cell.num b, Cell.num c, Cell.num d,
   Cell.num e, Cell.num (DiskUsage.get_value env), Cell.num (BootTime.get_value env)]

/-- A concrete environment on an nt host where every operation succeeds. -/
def envNT : Env where
  osName := "nt"
  timestampStr := "10/12/25 12:00:00"
  outputDir := "outdir"
  cwd := "workdir"
  mkdirFails := false
  topFails := false
  cpuReads := fun i => some ((i : ℚ) + 1)
  memoryReads := fun _ => some 2
  swapReads := fun _ => some 3
  diskReadTimeReads := fun _ => some 4
  diskWriteTimeReads := fun _ => some 5
  diskUsagePercent := fun p => if p = "workdir" then 42 else 7
  bootTime := 1000
  temperatures := []
  fans := []

/-- The same environment on a posix host (no fans detected). -/
def envPosix : Env := { envNT with osName := "posix" }

/-- The nt environment, but directory creation fails. -/
def envMkdirFail : Env := { envNT with mkdirFails := true }

/-! ### Helper lemmas -/

theorem foldl_max_mem (xs : List ℚ) (x : ℚ) :
    xs.foldl Max.max x = x ∨ xs.foldl Max.max x ∈ xs := by
  induction xs generalizing x with
  | nil => simp
  | cons y ys ih =>
    simp only [List.foldl_cons]
    rcases ih (Max.max x y) with h | h
    · rcases max_choice x y with hm | hm
      · left; rw [h, hm]
      · right; rw [h, hm]; exact List.mem_cons_self y ys
    · right; exact List.mem_cons_of_mem y h

theorem le_foldl_max (xs : List ℚ) (x : ℚ) :
    x ≤ xs.foldl Max.max x ∧ ∀ v ∈ xs, v ≤ xs.foldl Max.max x := by
  induction xs generalizing x with
  | nil => simp
  | cons y ys ih =>
    simp only [List.foldl_cons]
    obtain ⟨h1, h2⟩ := ih (Max.max x y)
    refine ⟨le_trans (le_max_left x y) h1, ?_⟩
    intro v hv
    rcases List.mem_cons.mp hv with rfl | hv
    · exact le_trans (le_max_right x v) h1
    · exact h2 v hv

theorem foldl_min_mem (xs : List ℚ) (x : ℚ) :
    xs.foldl Min.min x = x ∨ xs.foldl Min.min x ∈ xs := by
  induction xs generalizing x with
  | nil => simp
  | cons y ys ih =>
    simp only [List.foldl_cons]
    rcases ih (Min.min x y) with h | h
    · rcases min_choice x y with hm | hm
      · left; rw [h, hm]
      · right; rw [h, hm]; exact List.mem_cons_self y ys
    · right; exact List.mem_cons_of_mem y h

theorem foldl_min_le (xs : List ℚ) (x : ℚ) :
    xs.foldl Min.min x ≤ x ∧ ∀ v ∈ xs, xs.foldl Min.min x ≤ v := by
  induction xs generalizing x with
  | nil => simp
  | cons y ys ih =>
    simp only [List.foldl_cons]
    obtain ⟨h1, h2⟩ := ih (Min.min x y)
    refine ⟨le_trans h1 (min_le_left x y), ?_⟩
    intro v hv
    rcases List.mem_cons.mp hv with rfl | hv
    · exact le_trans h1 (min_le_right x v)
    · exact h2 v hv

theorem collectOneTime_posix_eq (env : Env) (h : env.osName = "posix") :
    collectOneTime env = Except.error "TypeError" := by
  unfold collectOneTime oneTimeMetrics
  rw [h]
  simp [collectValues, OneTimeEntry.get_value]

theorem collectOneTime_nonposix_eq (env : Env) (h : ¬ env.osName = "posix") :
    collectOneTime env = Except.ok [DiskUsage.get_value env, BootTime.get_value env] := by
  unfold collectOneTime oneTimeMetrics
  rw [if_neg h]
  simp [collectValues, OneTimeEntry.get_value]

theorem run_ok_eq (env : Env) (fs : FileState) (a b c d e : ℚ)
    (hm : env.mkdirFails = false) (ht : env.topFails = false)
    (hos : ¬ env.osName = "posix")
    (hav : averagesOf (runSampling env) = Except.ok [a, b, c, d, e]) :
    run env fs = (writeCsv fs env.osName (dataRow env a b c d e), true) := by
  unfold run
  rw [hm, ht, hav, collectOneTime_nonposix_eq env hos]
  simp [buildRow, dataRow]

theorem runN_some_eq (env : Env) (a b c d e : ℚ)
    (hm : env.mkdirFails = false) (ht : env.topFails = false)
    (hos : ¬ env.osName = "posix")
    (hav : averagesOf (runSampling env) = Except.ok [a, b, c, d, e]) :
    ∀ (n : Nat) (ls : List (List Cell)),
      runN env n ⟨some ls⟩ = ⟨some (ls ++ List.replicate n (dataRow env a b c d e))⟩ := by
  intro n
  induction n with
  | zero => intro ls; simp [runN]
  | succ k ih =>
    intro ls
    have hstep := run_ok_eq env ⟨some ls⟩ a b c d e hm ht hos hav
    calc runN env (k + 1) ⟨some ls⟩
        = runN env k (run env ⟨some ls⟩).1 := rfl
      _ = runN env k ⟨some (ls ++ [dataRow env a b c d e])⟩ := by
            rw [hstep]; rfl
      _ = ⟨some (ls ++ [dataRow env a b c d e] ++
            List.replicate k (dataRow env a b c d e))⟩ := ih _
      _ = ⟨some (ls ++ List.replicate (k + 1) (dataRow env a b c d e))⟩ := by
            rw [List.append_assoc]
            rw [List.replicate_succ]
            rfl

theorem dataRow_ne_headerRow (env : Env) (a b c d e : ℚ) :
    dataRow env a b c d e ≠ headerRow env.osName := by
  intro heq
  by_cases h : env.osName = "posix" <;>
    simp [dataRow, headerRow, headers, h] at heq

/-! ### Claim theorems -/

/-- Claim C3, counterexample: for the single reading `0.125` (a dyadic
rational, hence exact in binary floating point), the code's `average` is
`0.12` — Python `round` resolves the tie to the even digit — while rounding
the arithmetic mean with standard rounding (ties away from zero) gives
`0.13`. -/
theorem average_not_standard_rounded :
    Metric.average ⟨[1/8]⟩ ≠
      some (standardRound2 (([1/8] : List ℚ).sum / (([1/8] : List ℚ).length : ℚ))) := by
  with_unfolding_all decide

/-- Claim C3 (amended): for every non-empty sequence of readings,
`average()` equals the arithmetic mean rounded to 2 decimal places with
round-half-to-even, and `max()`/`min()` equal the true maximum/minimum of
the sequence. -/
theorem average_min_max_spec (vals : List ℚ) (h : vals ≠ []) :
    (∃ μ : ℚ, μ * (vals.length : ℚ) = vals.sum ∧
      Metric.average ⟨vals⟩ = some (roundTo2 μ))
    ∧ (∃ M, Metric.max ⟨vals⟩ = some M ∧ M ∈ vals ∧ ∀ v ∈ vals, v ≤ M)
    ∧ (∃ m, Metric.min ⟨vals⟩ = some m ∧ m ∈ vals ∧ ∀ v ∈ vals, m ≤ v) := by
  have hlen : vals.length ≠ 0 := by
    simpa using fun hl => h (List.length_eq_zero.mp hl)
  have hlenQ : (vals.length : ℚ) ≠ 0 := Nat.cast_ne_zero.mpr hlen
  refine ⟨⟨vals.sum / (vals.length : ℚ), div_mul_cancel₀ _ hlenQ, ?_⟩, ?_, ?_⟩
  · simp [Metric.average, hlen]
  · match vals, h with
    | x :: xs, _ =>
      refine ⟨xs.foldl Max.max x, rfl, ?_, ?_⟩
      · rcases foldl_max_mem xs x with hm | hm
        · rw [hm]; exact List.mem_cons_self x xs
        · exact List.mem_cons_of_mem x hm
      · intro v hv
        obtain ⟨h1, h2⟩ := le_foldl_max xs x
        rcases List.mem_cons.mp hv with rfl | hv
        · exact h1
        · exact h2 v hv
  · match vals, h with
    | x :: xs, _ =>
      refine ⟨xs.foldl Min.min x, rfl, ?_, ?_⟩
      · rcases foldl_min_mem xs x with hm | hm
        · rw [hm]; exact List.mem_cons_self x xs
        · exact List.mem_cons_of_mem x hm
      · intro v hv
        obtain ⟨h1, h2⟩ := foldl_min_le xs x
        rcases List.mem_cons.mp hv with rfl | hv
        · exact h1
        · exact h2 v hv

/-- Witness for C3's amended theorem at the concrete readings `[1, 2]`. -/
theorem average_min_max_spec_witness :
    (∃ μ : ℚ, μ * (([1, 2] : List ℚ).length : ℚ) = ([1, 2] : List ℚ).sum ∧
      Metric.average ⟨[1, 2]⟩ = some (roundTo2 μ))
    ∧ (∃ M, Metric.max ⟨[1, 2]⟩ = some M ∧ M ∈ ([1, 2] : List ℚ) ∧
        ∀ v ∈ ([1, 2] : List ℚ), v ≤ M)
    ∧ (∃ m, Metric.min ⟨[1, 2]⟩ = some m ∧ m ∈ ([1, 2] : List ℚ) ∧
        ∀ v ∈ ([1, 2] : List ℚ), m ≤ v) :=
  average_min_max_spec [1, 2] (by decide)

/-- Claim C6: `min`, `max` and `average` all fail (raise) on an empty
accumulation, and all succeed once at least one sample was recorded. -/
theorem empty_fails_nonempty_succeeds :
    (Metric.min ⟨[]⟩ = none ∧ Metric.max ⟨[]⟩ = none ∧ Metric.average ⟨[]⟩ = none)
    ∧ ∀ vals : List ℚ, vals ≠ [] →
        (Metric.min ⟨vals⟩).isSome ∧ (Metric.max ⟨vals⟩).isSome ∧
          (Metric.average ⟨vals⟩).isSome := by
  refine ⟨⟨rfl, rfl, rfl⟩, ?_⟩
  intro vals h
  match vals, h with
  | x :: xs, _ =>
    refine ⟨rfl, rfl, ?_⟩
    simp [Metric.average]

/-- Witness for C6 at the singleton accumulation `[3]`. -/
theorem empty_fails_nonempty_succeeds_witness :
    (Metric.min ⟨[(3 : ℚ)]⟩).isSome ∧ (Metric.max ⟨[(3 : ℚ)]⟩).isSome ∧
      (Metric.average ⟨[(3 : ℚ)]⟩).isSome :=
  empty_fails_nonempty_succeeds.2 [3] (by decide)

/-- Claim C7: `Temperature.get_value` on an instance is total and returns
`0.0` on every platform, but `FanSpeed.get_value` on a posix host with no
detected fans raises IndexError instead of returning `0.0`. -/
theorem fan_speed_raises_with_no_fans :
    (∀ env : Env, Temperature.get_value env = Except.ok 0)
    ∧ FanSpeed.get_value envPosix = Except.error "IndexError" := by
  constructor
  · intro env
    unfold Temperature.get_value
    split <;> rfl
  · rfl

/-- Claim C1: on a posix host the one-time collection phase always raises
TypeError — `one_time_metrics += [Temperature, FanSpeed]` appends the class
objects, not instances, so `m.get_value()` is called without `self` — and
therefore no Temperature/FanSpeed values (0.0 or otherwise) are ever
appended to the row. -/
theorem posix_one_time_raises (env : Env) (h : env.osName = "posix") :
    collectOneTime env = Except.error "TypeError" :=
  collectOneTime_posix_eq env h

/-- Witness for C1: the concrete posix environment. -/
theorem posix_one_time_raises_witness :
    collectOneTime envPosix = Except.error "TypeError" :=
  posix_one_time_raises envPosix rfl

/-- Claim C2: on a posix host the header declares 10 columns, but `run`
always aborts (TypeError in the one-time loop) and never assembles or
writes a row, leaving the file unchanged; so the claimed 10-column row
never exists. -/
theorem posix_run_never_writes_row (env : Env) (fs : FileState)
    (h : env.osName = "posix") :
    run env fs = (fs, false) ∧ (headers env.osName).length = 10 := by
  refine ⟨?_, by rw [h]; rfl⟩
  by_cases h1 : env.mkdirFails
  · simp [run, h1]
  · by_cases h2 : env.topFails
    · simp [run, h1, h2]
    · cases h3 : averagesOf (runSampling env) with
      | error e => simp [run, h1, h2, h3]
      | ok avgs => simp [run, h1, h2, h3, collectOneTime_posix_eq env h]

/-- Witness for C2: the concrete posix environment on a fresh file. -/
theorem posix_run_never_writes_row_witness :
    run envPosix ⟨none⟩ = (⟨none⟩, false) ∧ (headers envPosix.osName).length = 10 :=
  posix_run_never_writes_row envPosix ⟨none⟩ rfl

/-- Claim C8: an aborted run leaves `stats.csv` exactly as it was — every
failure exit of `run` returns the input file state unchanged, because the
single CSV append is the last step. -/
theorem aborted_run_leaves_csv_unchanged (env : Env) (fs : FileState)
    (h : (run env fs).2 = false) : (run env fs).1 = fs := by
  by_cases h1 : env.mkdirFails
  · simp [run, h1]
  · by_cases h2 : env.topFails
    · simp [run, h1, h2]
    · cases h3 : averagesOf (runSampling env) with
      | error e => simp [run, h1, h2, h3]
      | ok avgs =>
        cases h4 : collectOneTime env with
        | error e => simp [run, h1, h2, h3, h4]
        | ok ot => simp [run, h1, h2, h3, h4] at h

/-- Witness for C8: a run whose directory creation fails leaves the
(nonexistent) file untouched. -/
theorem aborted_run_leaves_csv_unchanged_witness :
    (run envMkdirFail ⟨none⟩).1 = ⟨none⟩ :=
  aborted_run_leaves_csv_unchanged envMkdirFail ⟨none⟩ (by decide)

/-- Claim C5: starting from a fresh directory (no `stats.csv`), `n + 1`
successful runs produce the header row exactly once, at the top, followed
by `n + 1` data rows; later runs never re-write the header. -/
theorem header_written_exactly_once (env : Env) (n : Nat) (a b c d e : ℚ)
    (hm : env.mkdirFails = false) (ht : env.topFails = false)
    (hos : ¬ env.osName = "posix")
    (hav : averagesOf (runSampling env) = Except.ok [a, b, c, d, e]) :
    runN env (n + 1) ⟨none⟩ =
      ⟨some (headerRow env.osName :: List.replicate (n + 1) (dataRow env a b c d e))⟩
    ∧ headerRow env.osName ∉ List.replicate (n + 1) (dataRow env a b c d e) := by
  constructor
  · have hstep := run_ok_eq env ⟨none⟩ a b c d e hm ht hos hav
    calc runN env (n + 1) ⟨none⟩
        = runN env n (run env ⟨none⟩).1 := rfl
      _ = runN env n ⟨some [headerRow env.osName, dataRow env a b c d e]⟩ := by
            rw [hstep]; rfl
      _ = ⟨some ([headerRow env.osName, dataRow env a b c d e] ++
            List.replicate n (dataRow env a b c d e))⟩ :=
            runN_some_eq env a b c d e hm ht hos hav n _
      _ = ⟨some (headerRow env.osName ::
            List.replicate (n + 1) (dataRow env a b c d e))⟩ := by
            rw [List.replicate_succ]; rfl
  · intro hmem
    exact dataRow_ne_headerRow env a b c d e
      ((List.eq_of_mem_replicate hmem).symm)

/-- Witness for C5: two runs of the nt environment against a fresh file
yield one header row and two (identical) data rows. -/
theorem header_written_exactly_once_witness :
    runN envNT (1 + 1) ⟨none⟩ =
      ⟨some (headerRow envNT.osName :: List.replicate (1 + 1) (dataRow envNT 3 2 3 4 5))⟩
    ∧ headerRow envNT.osName ∉ List.replicate (1 + 1) (dataRow envNT 3 2 3 4 5) :=
  header_written_exactly_once envNT 1 3 2 3 4 5 rfl rfl (by decide)
    (by with_unfolding_all rfl)

/-- Claim C10: the header decision looks only at file existence: whenever
`stats.csv` already exists, whatever its content (empty, or with a wrong
first line), a successful run appends exactly its data row — which is
never the header row — and writes no header. -/
theorem header_decision_ignores_content (env : Env) (content : List (List Cell))
    (a b c d e : ℚ)
    (hm : env.mkdirFails = false) (ht : env.topFails = false)
    (hos : ¬ env.osName = "posix")
    (hav : averagesOf (runSampling env) = Except.ok [a, b, c, d, e]) :
    run env ⟨some content⟩ = (⟨some (content ++ [dataRow env a b c d e])⟩, true)
    ∧ dataRow env a b c d e ≠ headerRow env.osName := by
  refine ⟨?_, dataRow_ne_headerRow env a b c d e⟩
  rw [run_ok_eq env ⟨some content⟩ a b c d e hm ht hos hav]
  rfl

/-- Witness for C10: a pre-existing file holding one garbage line (not the
header) gets exactly the data row appended. -/
theorem header_decision_ignores_content_witness :
    run envNT ⟨some [[Cell.str "garbage"]]⟩ =
      (⟨some ([[Cell.str "garbage"]] ++ [dataRow envNT 3 2 3 4 5])⟩, true)
    ∧ dataRow envNT 3 2 3 4 5 ≠ headerRow envNT.osName :=
  header_decision_ignores_content envNT [[Cell.str "garbage"]] 3 2 3 4 5 rfl rfl
    (by decide) (by with_unfolding_all rfl)

/-- Claim C4: after the five sampling rounds, when every underlying read
completes successfully, each of the five sampled metrics has accumulated
exactly 5 readings, one per round. -/
theorem sampler_accumulates_five (env : Env)
    (hcp : ∀ i < 5, ∃ v, env.cpuReads i = some v)
    (hme : ∀ i < 5, ∃ v, env.memoryReads i = some v)
    (hsw : ∀ i < 5, ∃ v, env.swapReads i = some v)
    (hdr : ∀ i < 5, ∃ v, env.diskReadTimeReads i = some v)
    (hdw : ∀ i < 5, ∃ v, env.diskWriteTimeReads i = some v) :
    (runSampling env).cpu._values.length = 5
    ∧ (runSampling env).memory._values.length = 5
    ∧ (runSampling env).swapMemory._values.length = 5
    ∧ (runSampling env).diskReadTime._values.length = 5
    ∧ (runSampling env).diskWriteTime._values.length = 5 := by
  obtain ⟨c0, hc0⟩ := hcp 0 (by norm_num)
  obtain ⟨c1, hc1⟩ := hcp 1 (by norm_num)
  obtain ⟨c2, hc2⟩ := hcp 2 (by norm_num)
  obtain ⟨c3, hc3⟩ := hcp 3 (by norm_num)
  obtain ⟨c4, hc4⟩ := hcp 4 (by norm_num)
  obtain ⟨m0, hm0⟩ := hme 0 (by norm_num)
  obtain ⟨m1, hm1⟩ := hme 1 (by norm_num)
  obtain ⟨m2, hm2⟩ := hme 2 (by norm_num)
  obtain ⟨m3, hm3⟩ := hme 3 (by norm_num)
  obtain ⟨m4, hm4⟩ := hme 4 (by norm_num)
  obtain ⟨s0, hs0⟩ := hsw 0 (by norm_num)
  obtain ⟨s1, hs1⟩ := hsw 1 (by norm_num)
  obtain ⟨s2, hs2⟩ := hsw 2 (by norm_num)
  obtain ⟨s3, hs3⟩ := hsw 3 (by norm_num)
  obtain ⟨s4, hs4⟩ := hsw 4 (by norm_num)
  obtain ⟨r0, hr0⟩ := hdr 0 (by norm_num)
  obtain ⟨r1, hr1⟩ := hdr 1 (by norm_num)
  obtain ⟨r2, hr2⟩ := hdr 2 (by norm_num)
  obtain ⟨r3, hr3⟩ := hdr 3 (by norm_num)
  obtain ⟨r4, hr4⟩ := hdr 4 (by norm_num)
  obtain ⟨w0, hw0⟩ := hdw 0 (by norm_num)
  obtain ⟨w1, hw1⟩ := hdw 1 (by norm_num)
  obtain ⟨w2, hw2⟩ := hdw 2 (by norm_num)
  obtain ⟨w3, hw3⟩ := hdw 3 (by norm_num)
  obtain ⟨w4, hw4⟩ := hdw 4 (by norm_num)
  have h5 : List.range 5 = [0, 1, 2, 3, 4] := rfl
  unfold runSampling
  rw [h5]
  simp [List.foldl, samplingRound, Metric.generate, initialMetrics,
        hc0, hc1, hc2, hc3, hc4, hm0, hm1, hm2, hm3, hm4,
        hs0, hs1, hs2, hs3, hs4, hr0, hr1, hr2, hr3, hr4,
        hw0, hw1, hw2, hw3, hw4]

/-- Witness for C4: in the concrete nt environment every metric ends the
sampling phase with exactly 5 accumulated readings. -/
theorem sampler_accumulates_five_witness :
    (runSampling envNT).cpu._values.length = 5
    ∧ (runSampling envNT).memory._values.length = 5
    ∧ (runSampling envNT).swapMemory._values.length = 5
    ∧ (runSampling envNT).diskReadTime._values.length = 5
    ∧ (runSampling envNT).diskWriteTime._values.length = 5 :=
  sampler_accumulates_five envNT
    (fun i _ => ⟨(i : ℚ) + 1, rfl⟩) (fun _ _ => ⟨2, rfl⟩) (fun _ _ => ⟨3, rfl⟩)
    (fun _ _ => ⟨4, rfl⟩) (fun _ _ => ⟨5, rfl⟩)

/-- Claim C9: `DiskUsage.get_value` reports the filesystem of the current
working directory, and there are environments where this differs from the
output directory's filesystem usage. -/
theorem disk_usage_reads_cwd :
    (∀ env : Env, DiskUsage.get_value env = env.diskUsagePercent env.cwd)
    ∧ ∃ env : Env, DiskUsage.get_value env ≠ env.diskUsagePercent env.outputDir := by
  refine ⟨fun env => rfl, ⟨envNT, ?_⟩⟩
  decide

end OSMetrics
